import Mathlib

/-!
A shallow embedding of the xpra Wayland compositor core
(`xpra/wayland/compositor.pyx`): the event bus, the surface registry's
destroy and commit handlers, the damage / texture-readback path, the
`initialize` step checks, and the global `wid` counter, together with
theorems checking the documented behaviour against the embedded code.
-/

namespace Xpra

/-- Wrap-around bound of the C `uint32_t` arithmetic used in the readback
path (`cdef uint32_t width/stride/texture_size` in `capture_surface_pixels`). -/
def U32 : Nat := 4294967296

/-- Wrap-around bound of the C `unsigned long` (64-bit) global `wid` counter. -/
def U64 : Nat := 18446744073709551616

/-- Pixel-image payload of a `surface-image` event, as built by
`ImageWrapper(0, 0, width, height, pixels, "BGRA", 32, stride)`;
`bytesLen` is the length of the pixel buffer allocated with
`getbuf(texture_size)`, i.e. `texture_size` bytes. -/
structure Image where
  width : Nat
  height : Nat
  stride : Nat
  bytesLen : Nat
  format : String
  bpp : Nat
  deriving DecidableEq, Repr

/-- The bus events modelled here (`destroy`, `commit`, `surface-image`);
the remaining event names of the source are not needed by the theorems. -/
inductive Event where
  | destroy (wid : Nat)
  | commit (wid : Nat) (mapped : Bool) (rects : List (Int × Int × Int × Int))
  | surfaceImage (wid : Nat) (img : Image)
  deriving DecidableEq, Repr

/-- A `pixman_box32_t` rectangle of a damage region: corners `(x1, y1)` and
`(x2, y2)`. -/
structure PixmanBox where
  x1 : Int
  y1 : Int
  x2 : Int
  y2 : Int
  deriving DecidableEq, Repr

/-- `get_damage_areas`: for every rectangle of the region, append
`(x, y, w, h)` with `x = x1`, `y = y1`, `w = x2 - x1`, `h = y2 - y1`. -/
def get_damage_areas (damage : List PixmanBox) : List (Int × Int × Int × Int) :=
  damage.map (fun b => (b.x1, b.y1, b.x2 - b.x1, b.y2 - b.y1))

/-- The GPU texture of a client buffer: its `uint32_t` dimensions, plus an
oracle for the outcome of the external `wlr_texture_read_pixels` call. -/
structure WlrTexture where
  width : Nat
  height : Nat
  readOk : Bool
  deriving DecidableEq, Repr

/-- A `wlr_client_buffer`, which may or may not carry a texture. -/
structure WlrClientBuffer where
  texture : Option WlrTexture
  deriving DecidableEq, Repr

/-- State of one tracked XDG surface as seen by `xdg_surface_commit` and
`capture_surface_pixels`: the record's `wid`, the native surface's role /
`initialized` (here `inited`) / `configured` / `mapped` flags, its buffer
damage region, its client buffer and its geometry origin. -/
structure SurfaceCtx where
  wid : Nat
  hasToplevel : Bool
  inited : Bool
  configured : Bool
  mapped : Bool
  bufferDamage : List PixmanBox
  buffer : Option WlrClientBuffer
  geometryX : Int
  geometryY : Int
  deriving DecidableEq, Repr

/-- `capture_surface_pixels`: return early when the surface has no client
buffer or the buffer has no texture; compute `stride = width * 4` and
`texture_size = stride * height` in `uint32_t` arithmetic; on read failure
log and return without emitting; on success emit
`surface-image(wid, image)` with the texture dimensions, the stride and
the allocated buffer. -/
def capture_surface_pixels (s : SurfaceCtx) : Option Event :=
  match s.buffer with
  | none => none
  | some cb =>
    match cb.texture with
    | none => none
    | some tex =>
      let width := tex.width
      let height := tex.height
      let stride := width * 4 % U32
      let textureSize := stride * height % U32
      if tex.readOk then
        some (Event.surfaceImage s.wid
          { width := width, height := height, stride := stride,
            bytesLen := textureSize, format := "BGRA", bpp := 32 })
      else
        none

/-- Observable effects of one `xdg_surface_commit` call: the
`wlr_xdg_toplevel_set_size` calls made, the number of
`wlr_xdg_surface_schedule_configure` calls, the bus events emitted in
order, and whether the surface record was freed. -/
structure CommitOutcome where
  setSizeCalls : List (Nat × Nat)
  scheduleConfigureCalls : Nat
  events : List Event
  freedRecord : Bool
  deriving DecidableEq, Repr

/-- `xdg_surface_commit`: if the surface is a toplevel, is initialized and
is not yet configured, call `wlr_xdg_toplevel_set_size(toplevel, 800, 600)`
and schedule a configure.  Then `rects = []`; only when the surface is
mapped, `rects = get_damage_areas(buffer_damage)` and
`capture_surface_pixels` runs; finally emit `commit(wid, mapped, rects)`.
The handler never frees the surface record. -/
def xdg_surface_commit (s : SurfaceCtx) : CommitOutcome :=
  let firstConfigure := s.hasToplevel && s.inited && !s.configured
  let rects := if s.mapped then get_damage_areas s.bufferDamage else []
  let captureEvents := if s.mapped then (capture_surface_pixels s).toList else []
  { setSizeCalls := if firstConfigure then [(800, 600)] else []
    scheduleConfigureCalls := if firstConfigure then 1 else 0
    events := captureEvents ++ [Event.commit s.wid s.mapped rects]
    freedRecord := false }

/-- Which of the toplevel-only listener links of a surface record are
currently inserted in a signal list (they are absent when the surface had
no toplevel at setup time). -/
structure ToplevelLinks where
  requestMove : Bool
  requestResize : Bool
  requestMaximize : Bool
  requestFullscreen : Bool
  requestMinimize : Bool
  setTitle : Bool
  setAppId : Bool
  deriving DecidableEq, Repr

/-- Observable effects of one `xdg_surface_destroy_handler` call: the
subscription links removed (in order), whether the record was freed, and
the bus events emitted. -/
structure DestroyOutcome where
  unlinked : List String
  freedRecord : Bool
  events : List Event
  deriving DecidableEq, Repr

/-- `xdg_surface_destroy_handler`: unconditionally unlink the `map`,
`unmap`, `destroy` and `commit` links; unlink each toplevel-only link only
when it is inserted; save the `wid`; free the record; then, inside the
`if debug:` block of the source, log and emit `destroy(wid)` — so the
`destroy` event is emitted only when debug logging is enabled. -/
def xdg_surface_destroy_handler (debug : Bool) (wid : Nat)
    (links : ToplevelLinks) : DestroyOutcome :=
  { unlinked :=
      ["map", "unmap", "destroy", "commit"]
      ++ (if links.requestMove then ["request_move"] else [])
      ++ (if links.requestResize then ["request_resize"] else [])
      ++ (if links.requestMaximize then ["request_maximize"] else [])
      ++ (if links.requestFullscreen then ["request_fullscreen"] else [])
      ++ (if links.requestMinimize then ["request_minimize"] else [])
      ++ (if links.setTitle then ["set_title"] else [])
      ++ (if links.setAppId then ["set_app_id"] else [])
    freedRecord := true
    events := if debug then [Event.destroy wid] else [] }

/-- Callbacks registered on the event bus, identified like Python function
objects: by identity. -/
abbrev Callback := Nat

/-- The `event_listeners` dict: an insertion-ordered association of event
names to callback lists, as a Python dict of lists. -/
abbrev Bus := List (String × List Callback)

/-- `event_listeners.get(name)`: the value at the first matching key. -/
def busLookup (bus : Bus) (name : String) : Option (List Callback) :=
  match bus with
  | [] => none
  | (n, cbs) :: rest => if n = name then some cbs else busLookup rest name

/-- In-place update of the value stored at the first matching key. -/
def busUpdate (bus : Bus) (name : String) (cbs : List Callback) : Bus :=
  match bus with
  | [] => []
  | (n, old) :: rest =>
    if n = name then (n, cbs) :: rest else (n, old) :: busUpdate rest name cbs

/-- `event_listeners.pop(name)`: drop the first matching key. -/
def busErase (bus : Bus) (name : String) : Bus :=
  match bus with
  | [] => []
  | (n, cbs) :: rest => if n = name then rest else (n, cbs) :: busErase rest name

/-- Python's `list.remove`: delete the first occurrence of `cb`. -/
def removeFirstCb (cbs : List Callback) (cb : Callback) : List Callback :=
  match cbs with
  | [] => []
  | c :: rest => if c = cb then rest else c :: removeFirstCb rest cb

/-- `add_event_listener(name, cb)`:
`event_listeners.setdefault(name, []).append(cb)`. -/
def add_event_listener (bus : Bus) (name : String) (cb : Callback) : Bus :=
  match busLookup bus name with
  | some cbs => busUpdate bus name (cbs ++ [cb])
  | none => bus ++ [(name, [cb])]

/-- `remove_event_listener(name, cb)`: return unchanged when the name has
no entry or an empty (falsy) list, or when `cb` is not registered;
otherwise remove the first occurrence of `cb` and drop the name when its
list becomes empty. -/
def remove_event_listener (bus : Bus) (name : String) (cb : Callback) : Bus :=
  match busLookup bus name with
  | none => bus
  | some cbs =>
    if cbs = [] then bus
    else if cb ∈ cbs then
      let remaining := removeFirstCb cbs cb
      if remaining = [] then busErase bus name else busUpdate bus name remaining
    else bus

/-- A bus is well formed when no stored callback list is empty — the
invariant of every state reachable through the two API functions, since
`add` never stores an empty list and `remove` pops a list that empties. -/
def busWF (bus : Bus) : Prop := ∀ p ∈ bus, p.2 ≠ []

instance : DecidablePred busWF := fun bus =>
  inferInstanceAs (Decidable (∀ p ∈ bus, p.2 ≠ []))

/-- Success or failure of every external library call made by
`WaylandCompositor.initialize`, in source order. -/
structure InitWorld where
  displayOk : Bool
  backendOk : Bool
  rendererOk : Bool
  allocatorOk : Bool
  compositorOk : Bool
  xdgShellOk : Bool
  sceneOk : Bool
  outputLayoutOk : Bool
  decorationOk : Bool
  cursorOk : Bool
  seatOk : Bool
  socketOk : Bool
  backendStartOk : Bool
  deriving DecidableEq, Repr

/-- `WaylandCompositor.initialize`, keeping exactly the null checks of the
source: `wl_display_create`, `wlr_headless_backend_create`,
`wlr_renderer_autocreate`, `wlr_allocator_autocreate`,
`wlr_output_layout_create`, `wlr_cursor_create`,
`wl_display_add_socket_auto` and `wlr_backend_start` are checked and raise
the quoted messages; the results of `wlr_compositor_create`,
`wlr_xdg_shell_create`, `wlr_scene_create` and `wlr_seat_create` are used
without any check, and a null `wlr_xdg_decoration_manager_v1_create`
result only logs a warning. -/
def initCompositor (w : InitWorld) : Except String Unit :=
  if !w.displayOk then Except.error "Failed to create display"
  else if !w.backendOk then Except.error "Failed to create headless backend"
  else if !w.rendererOk then Except.error "Failed to create renderer"
  else if !w.allocatorOk then Except.error "Failed to create allocator"
  else if !w.outputLayoutOk then Except.error "Failed to create output layout"
  else if !w.cursorOk then Except.error "Failed to create cursor"
  else if !w.socketOk then Except.error "Failed to add socket"
  else if !w.backendStartOk then Except.error "Failed to start backend"
  else Except.ok ()

/-- The per-compositor `WaylandCompositor` handles relevant to the device
accessors: the seat and cursor pointers of its `server` struct. -/
structure WaylandCompositorHandles where
  seat : Nat
  cursor : Nat
  deriving DecidableEq, Repr

/-- `WaylandCompositor.get_keyboard_device`: the source returns `None`
(the `WaylandKeyboard(...)` construction is commented out). -/
def get_keyboard_device (_c : WaylandCompositorHandles) : Option Nat := none

/-- `WaylandCompositor.get_pointer_device`: returns a pointer facade built
from the seat and cursor handles. -/
def get_pointer_device (c : WaylandCompositorHandles) : Option (Nat × Nat) :=
  some (c.seat, c.cursor)

/-- The role of a new XDG surface. -/
inductive XdgRole where
  | roleNone
  | toplevel
  | popup
  deriving DecidableEq, Repr

/-- The role filter of `new_xdg_surface`: a surface is tracked unless its
role is neither `WLR_XDG_SURFACE_ROLE_NONE` nor
`WLR_XDG_SURFACE_ROLE_TOPLEVEL` (i.e. popups are ignored). -/
def roleAccepted (r : XdgRole) : Bool :=
  match r with
  | .popup => false
  | _ => true

/-- The increment of the module-level `unsigned long` counter performed by
`new_xdg_surface` (`wid += 1`), with 64-bit wrap-around. -/
def widNext (w : Nat) : Nat := (w + 1) % U64

/-- Run `new_xdg_surface` over a sequence of arriving surfaces starting
from a given counter value: skip rejected roles, and for each accepted one
increment the global counter, assign it as the record's `wid`, and emit it
in the `new-surface` event.  Returns the final counter and the emitted
`wid` values in order. -/
def processNewSurfaces (counter : Nat) (roles : List XdgRole) : Nat × List Nat :=
  match roles with
  | [] => (counter, [])
  | r :: rest =>
    if roleAccepted r then
      let assigned := widNext counter
      let tail := processNewSurfaces assigned rest
      (tail.1, assigned :: tail.2)
    else
      processNewSurfaces counter rest

/-- The lifecycle handles of the `server` struct that `cleanup` tears down
and a successful `initialize` populates. -/
structure ServerHandles where
  display : Option Nat
  backend : Option Nat
  renderer : Option Nat
  allocator : Option Nat
  scene : Option Nat
  cursor : Option Nat
  outputLayout : Option Nat
  seat : Option Nat
  deriving DecidableEq, Repr

/-- Process-level state: the module-level `wid` counter (a true global,
declared once at module scope) and the current compositor's server
handles. -/
structure ProcState where
  widCounter : Nat
  srv : ServerHandles
  deriving DecidableEq, Repr

/-- `WaylandCompositor.cleanup`: destroys clients, unlinks the
compositor-level subscriptions and nulls every `server` handle in order;
no statement of `cleanup` references the module-level `wid` counter. -/
def cleanup (p : ProcState) : ProcState :=
  { p with srv :=
    { display := none, backend := none, renderer := none, allocator := none,
      scene := none, cursor := none, outputLayout := none, seat := none } }

/-- A fresh instance's successful `initialize` populating the `server`
handles; no statement of `initialize` references the module-level `wid`
counter. -/
def initFresh (p : ProcState) (h : ServerHandles) : ProcState :=
  { p with srv := h }

/-- The `wid` that the next accepted `new_xdg_surface` call will assign
from a given process state (`wid += 1` on the module-level counter). -/
def nextAssignedWid (p : ProcState) : Nat := widNext p.widCounter

/-- All toplevel links inserted: the state of a toplevel surface record
whose setup completed. -/
def allToplevelLinks : ToplevelLinks :=
  { requestMove := true, requestResize := true, requestMaximize := true,
    requestFullscreen := true, requestMinimize := true,
    setTitle := true, setAppId := true }

/-- An unmapped surface whose buffer damage region holds one rectangle. -/
def unmappedDamagedSurface : SurfaceCtx :=
  { wid := 7, hasToplevel := true, inited := true, configured := true,
    mapped := false, bufferDamage := [{ x1 := 0, y1 := 0, x2 := 4, y2 := 2 }],
    buffer := none, geometryX := 0, geometryY := 0 }

/-- A mapped surface with one damage rectangle and no client buffer. -/
def mappedDamagedSurface : SurfaceCtx :=
  { wid := 9, hasToplevel := true, inited := true, configured := true,
    mapped := true, bufferDamage := [{ x1 := 2, y1 := 3, x2 := 6, y2 := 5 }],
    buffer := none, geometryX := 0, geometryY := 0 }

/-- A run in which every library call succeeds except
`wlr_compositor_create`. -/
def compositorNullWorld : InitWorld :=
  { displayOk := true, backendOk := true, rendererOk := true,
    allocatorOk := true, compositorOk := false, xdgShellOk := true,
    sceneOk := true, outputLayoutOk := true, decorationOk := true,
    cursorOk := true, seatOk := true, socketOk := true, backendStartOk := true }

/-- A run in which `wl_display_add_socket_auto` fails and every earlier
checked call succeeds. -/
def socketFailWorld : InitWorld :=
  { displayOk := true, backendOk := true, rendererOk := true,
    allocatorOk := true, compositorOk := true, xdgShellOk := true,
    sceneOk := true, outputLayoutOk := true, decorationOk := true,
    cursorOk := true, seatOk := true, socketOk := false, backendStartOk := true }

/-- A mapped surface whose texture is 2^30 pixels wide, so the `uint32_t`
product `width * 4` wraps to zero. -/
def hugeTextureSurface : SurfaceCtx :=
  { wid := 3, hasToplevel := true, inited := true, configured := true,
    mapped := true, bufferDamage := [],
    buffer := some { texture := some { width := 1073741824, height := 1, readOk := true } },
    geometryX := 0, geometryY := 0 }

/-- A mapped surface carrying a small 4 by 2 texture that reads back
successfully. -/
def smallTextureSurface : SurfaceCtx :=
  { wid := 1, hasToplevel := true, inited := true, configured := true,
    mapped := true, bufferDamage := [{ x1 := 0, y1 := 0, x2 := 4, y2 := 2 }],
    buffer := some { texture := some { width := 4, height := 2, readOk := true } },
    geometryX := 0, geometryY := 0 }

/-- A mapped surface whose texture read-pixels call fails. -/
def failingReadSurface : SurfaceCtx :=
  { wid := 4, hasToplevel := true, inited := true, configured := true,
    mapped := true, bufferDamage := [{ x1 := 1, y1 := 1, x2 := 3, y2 := 4 }],
    buffer := some { texture := some { width := 4, height := 2, readOk := false } },
    geometryX := 0, geometryY := 0 }

/-- A toplevel surface committing while initialized but not yet
configured. -/
def freshToplevelSurface : SurfaceCtx :=
  { wid := 2, hasToplevel := true, inited := true, configured := false,
    mapped := false, bufferDamage := [], buffer := none,
    geometryX := 0, geometryY := 0 }

/-- A process state after five wids were assigned, with a live server. -/
def procAfterFive : ProcState :=
  { widCounter := 5,
    srv := { display := some 1, backend := some 2, renderer := some 3,
             allocator := some 4, scene := some 5, cursor := some 6,
             outputLayout := some 7, seat := some 8 } }

/-- Handles produced by a fresh instance's successful `initialize`. -/
def freshHandles : ServerHandles :=
  { display := some 11, backend := some 12, renderer := some 13,
    allocator := some 14, scene := some 15, cursor := some 16,
    outputLayout := some 17, seat := some 18 }

/-- Looking a name up after appending a fresh entry for it finds that
entry, when no earlier entry has the name. -/
theorem busLookup_append_fresh (bus : Bus) (name : String) (l : List Callback)
    (h : busLookup bus name = none) :
    busLookup (bus ++ [(name, l)]) name = some l := by
  induction bus with
  | nil => simp [busLookup]
  | cons p rest ih =>
    obtain ⟨n, cbs⟩ := p
    by_cases hn : n = name
    · simp [busLookup, hn] at h
    · simp only [List.cons_append]
      simp only [busLookup, hn, if_false] at h ⊢
      exact ih h

/-- Erasing a name that only the appended entry carries removes exactly
that entry. -/
theorem busErase_append_fresh (bus : Bus) (name : String) (l : List Callback)
    (h : busLookup bus name = none) :
    busErase (bus ++ [(name, l)]) name = bus := by
  induction bus with
  | nil => simp [busErase]
  | cons p rest ih =>
    obtain ⟨n, cbs⟩ := p
    by_cases hn : n = name
    · simp [busLookup, hn] at h
    · simp only [busLookup, hn, if_false] at h
      simp only [List.cons_append]
      simp only [busErase, hn, if_false]
      rw [ih h]

/-- Looking up after an update at an existing name sees the new value. -/
theorem busLookup_busUpdate (bus : Bus) (name : String)
    (cbs l : List Callback) (h : busLookup bus name = some cbs) :
    busLookup (busUpdate bus name l) name = some l := by
  induction bus with
  | nil => simp [busLookup] at h
  | cons p rest ih =>
    obtain ⟨n, old⟩ := p
    by_cases hn : n = name
    · simp [busLookup, busUpdate, hn]
    · simp only [busLookup, hn, if_false] at h
      simp only [busUpdate, hn, if_false]
      simp only [busLookup, hn, if_false]
      exact ih h

/-- Two successive updates at the same name collapse to the second. -/
theorem busUpdate_busUpdate (bus : Bus) (name : String)
    (l l' : List Callback) :
    busUpdate (busUpdate bus name l) name l' = busUpdate bus name l' := by
  induction bus with
  | nil => simp [busUpdate]
  | cons p rest ih =>
    obtain ⟨n, old⟩ := p
    by_cases hn : n = name
    · simp [busUpdate, hn]
    · simp only [busUpdate, hn, if_false]
      rw [ih]

/-- Updating a name with the value it already stores is the identity. -/
theorem busUpdate_self (bus : Bus) (name : String) (cbs : List Callback)
    (h : busLookup bus name = some cbs) :
    busUpdate bus name cbs = bus := by
  induction bus with
  | nil => rfl
  | cons p rest ih =>
    obtain ⟨n, old⟩ := p
    by_cases hn : n = name
    · simp only [busLookup] at h
      rw [if_pos hn] at h
      have hv : old = cbs := Option.some.inj h
      simp [busUpdate, hn, hv]
    · simp only [busLookup, hn, if_false] at h
      simp only [busUpdate, hn, if_false]
      rw [ih h]

/-- A successful lookup certifies that the stored list is one of the bus
entries' values. -/
theorem busLookup_mem (bus : Bus) (name : String) (cbs : List Callback)
    (h : busLookup bus name = some cbs) : (name, cbs) ∈ bus := by
  induction bus with
  | nil => simp [busLookup] at h
  | cons p rest ih =>
    obtain ⟨n, old⟩ := p
    by_cases hn : n = name
    · simp only [busLookup] at h
      rw [if_pos hn] at h
      have hv : old = cbs := Option.some.inj h
      rw [← hn, ← hv]
      exact List.mem_cons_self _ _
    · simp only [busLookup, hn, if_false] at h
      exact List.mem_cons_of_mem _ (ih h)

/-- Removing the first occurrence of a callback appended to a list that
did not contain it recovers the original list. -/
theorem removeFirstCb_append_fresh (cbs : List Callback) (cb : Callback)
    (h : cb ∉ cbs) : removeFirstCb (cbs ++ [cb]) cb = cbs := by
  induction cbs with
  | nil => simp [removeFirstCb]
  | cons c rest ih =>
    have hne : c ≠ cb := fun hc => h (by simp [hc])
    simp only [List.cons_append]
    simp only [removeFirstCb, hne, if_false]
    rw [ih (fun hc => h (List.mem_cons_of_mem _ hc))]

/-- C1: the destroy handler removes every inserted subscription link and
frees the record, but the `destroy(wid)` emission sits inside the source's
`if debug:` block — with debug logging disabled (the default) no `destroy`
event is emitted at all, contradicting the specified unconditional
`destroy(wid)` emission; with debug logging enabled it is emitted exactly
once. -/
theorem destroy_emitted_only_when_debug :
    (xdg_surface_destroy_handler false 1 allToplevelLinks).events = []
    ∧ (xdg_surface_destroy_handler true 1 allToplevelLinks).events
        = [Event.destroy 1]
    ∧ (xdg_surface_destroy_handler false 1 allToplevelLinks).freedRecord = true
    ∧ (xdg_surface_destroy_handler false 1 allToplevelLinks).unlinked
        = ["map", "unmap", "destroy", "commit", "request_move",
           "request_resize", "request_maximize", "request_fullscreen",
           "request_minimize", "set_title", "set_app_id"] :=
  ⟨rfl, rfl, rfl, rfl⟩

/-- C2 (counterexample): committing an unmapped surface whose buffer
damage region is non-empty emits `commit(7, false, [])`, while the
damage-derived rectangle list is non-empty — the rectangles are not
carried regardless of mapped state, and `rects` is empty despite damage
being present. -/
theorem commit_unmapped_drops_damage :
    (xdg_surface_commit unmappedDamagedSurface).events
      = [Event.commit 7 false []]
    ∧ get_damage_areas unmappedDamagedSurface.bufferDamage = [(0, 0, 4, 2)]
    ∧ get_damage_areas unmappedDamagedSurface.bufferDamage ≠ [] :=
  ⟨rfl, rfl, by decide⟩

/-- C2 (amended): every commit emits a final `commit(wid, mapped, rects)`
event whose `rects` are the damage-derived rectangles when the surface is
mapped and `[]` when it is unmapped, regardless of damage; in the mapped
case `rects` is empty exactly when the buffer damage region is empty. -/
theorem commit_event_rects (s : SurfaceCtx) :
    (xdg_surface_commit s).events.getLast?
      = some (Event.commit s.wid s.mapped
          (if s.mapped then get_damage_areas s.bufferDamage else []))
    ∧ (s.mapped = true →
        (get_damage_areas s.bufferDamage = [] ↔ s.bufferDamage = [])) := by
  constructor
  · have h : (xdg_surface_commit s).events
        = (if s.mapped then (capture_surface_pixels s).toList else [])
          ++ [Event.commit s.wid s.mapped
                (if s.mapped then get_damage_areas s.bufferDamage else [])] := rfl
    rw [h, List.getLast?_concat]
  · intro _
    simp [get_damage_areas]

/-- C2 (witness): on a concrete mapped surface with one damage rectangle,
the commit event carries exactly the damage-derived rectangles. -/
theorem commit_event_rects_witness :
    (xdg_surface_commit mappedDamagedSurface).events.getLast?
      = some (Event.commit mappedDamagedSurface.wid mappedDamagedSurface.mapped
          (if mappedDamagedSurface.mapped
            then get_damage_areas mappedDamagedSurface.bufferDamage else []))
    ∧ (get_damage_areas mappedDamagedSurface.bufferDamage = []
        ↔ mappedDamagedSurface.bufferDamage = []) :=
  ⟨(commit_event_rects mappedDamagedSurface).1,
   (commit_event_rects mappedDamagedSurface).2 rfl⟩

/-- C3 (counterexample): when `wlr_compositor_create` (the claim's
"compositor object" step) returns null and every other call succeeds,
`initialize` still returns success — the source never checks that result,
so not every listed step failure fails the call. -/
theorem init_unchecked_compositor_step :
    compositorNullWorld.compositorOk = false
    ∧ initCompositor compositorNullWorld = Except.ok () :=
  ⟨rfl, rfl⟩

/-- C3 (amended): of the §4.1 steps, exactly the checked ones — display,
headless backend, renderer, allocator, output layout, cursor, socket and
backend start — fail `initialize` with an error message naming the step
(each shown with all earlier checked steps succeeding); the compositor
object, xdg shell, scene and seat creation results are never checked. -/
theorem init_checked_steps_fail_named (w : InitWorld) :
    (w.displayOk = false →
      initCompositor w = Except.error "Failed to create display")
    ∧ (w.displayOk = true → w.backendOk = false →
      initCompositor w = Except.error "Failed to create headless backend")
    ∧ (w.displayOk = true → w.backendOk = true → w.rendererOk = false →
      initCompositor w = Except.error "Failed to create renderer")
    ∧ (w.displayOk = true → w.backendOk = true → w.rendererOk = true →
      w.allocatorOk = false →
      initCompositor w = Except.error "Failed to create allocator")
    ∧ (w.displayOk = true → w.backendOk = true → w.rendererOk = true →
      w.allocatorOk = true → w.outputLayoutOk = false →
      initCompositor w = Except.error "Failed to create output layout")
    ∧ (w.displayOk = true → w.backendOk = true → w.rendererOk = true →
      w.allocatorOk = true → w.outputLayoutOk = true → w.cursorOk = false →
      initCompositor w = Except.error "Failed to create cursor")
    ∧ (w.displayOk = true → w.backendOk = true → w.rendererOk = true →
      w.allocatorOk = true → w.outputLayoutOk = true → w.cursorOk = true →
      w.socketOk = false →
      initCompositor w = Except.error "Failed to add socket")
    ∧ (w.displayOk = true → w.backendOk = true → w.rendererOk = true →
      w.allocatorOk = true → w.outputLayoutOk = true → w.cursorOk = true →
      w.socketOk = true → w.backendStartOk = false →
      initCompositor w = Except.error "Failed to start backend") := by
  refine ⟨?_, ?_, ?_, ?_, ?_, ?_, ?_, ?_⟩ <;>
    intros <;> simp_all [initCompositor]

/-- C3 (witness): a failing socket allocation with all earlier checked
steps succeeding raises exactly the socket error. -/
theorem init_checked_steps_fail_named_witness :
    initCompositor socketFailWorld = Except.error "Failed to add socket" :=
  (init_checked_steps_fail_named socketFailWorld).2.2.2.2.2.2.1
    rfl rfl rfl rfl rfl rfl rfl

/-- C4 (counterexample): with a texture 2^30 pixels wide the emitted
`surface-image` carries `stride = 2^30 * 4 mod 2^32 = 0` and a zero-length
buffer, so `img.stride ≠ 4 * img.width` — the claimed equalities fail once
the `uint32_t` stride arithmetic wraps. -/
theorem surface_image_stride_overflow :
    capture_surface_pixels hugeTextureSurface
      = some (Event.surfaceImage 3
          { width := 1073741824, height := 1, stride := 0, bytesLen := 0,
            format := "BGRA", bpp := 32 })
    ∧ (0 : Nat) ≠ 4 * 1073741824 :=
  ⟨rfl, by decide⟩

/-- C4 (amended): whenever the readback succeeds and the `uint32_t`
products do not wrap (`width * 4 < 2^32` and `width * 4 * height < 2^32`,
true of every realistic texture), the emitted `surface-image` carries the
texture's dimensions and satisfies `stride = 4 * width` and
`len(bytes) = stride * height`. -/
theorem surface_image_dimensions (s : SurfaceCtx) (tex : WlrTexture)
    (hb : s.buffer = some { texture := some tex }) (hr : tex.readOk = true)
    (hw : tex.width * 4 < U32) (hwh : tex.width * 4 * tex.height < U32) :
    ∃ img : Image,
      capture_surface_pixels s = some (Event.surfaceImage s.wid img)
      ∧ img.width = tex.width ∧ img.height = tex.height
      ∧ img.stride = 4 * img.width
      ∧ img.bytesLen = img.stride * img.height := by
  refine ⟨{ width := tex.width, height := tex.height,
            stride := tex.width * 4 % U32,
            bytesLen := tex.width * 4 % U32 * tex.height % U32,
            format := "BGRA", bpp := 32 }, ?_, rfl, rfl, ?_, ?_⟩
  · unfold capture_surface_pixels
    rw [hb]
    simp [hr]
  · show tex.width * 4 % U32 = 4 * tex.width
    rw [Nat.mod_eq_of_lt hw, Nat.mul_comm]
  · show tex.width * 4 % U32 * tex.height % U32
      = tex.width * 4 % U32 * tex.height
    rw [Nat.mod_eq_of_lt hw, Nat.mod_eq_of_lt hwh]

/-- C4 (witness): the 4 by 2 texture produces an image with width 4,
height 2, stride 16 and 32 bytes of pixels. -/
theorem surface_image_dimensions_witness :
    ∃ img : Image,
      capture_surface_pixels smallTextureSurface
        = some (Event.surfaceImage smallTextureSurface.wid img)
      ∧ img.width = 4 ∧ img.height = 2
      ∧ img.stride = 4 * img.width
      ∧ img.bytesLen = img.stride * img.height :=
  surface_image_dimensions smallTextureSurface
    { width := 4, height := 2, readOk := true } rfl rfl (by decide) (by decide)

/-- C5 (counterexample): on the bus state mapping "map" to callbacks
`[0, 1]`, adding callback `0` and then removing it yields `[1, 0]`:
`remove` deletes the first occurrence in the list, not the one just
appended, so the pair reorders the callbacks instead of restoring the
prior state. -/
theorem add_remove_reorders :
    remove_event_listener (add_event_listener [("map", [0, 1])] "map" 0) "map" 0
      = [("map", [1, 0])]
    ∧ ([("map", [1, 0])] : Bus) ≠ [("map", [0, 1])] :=
  ⟨rfl, by decide⟩

/-- C5 (amended): provided the bus is well formed (no empty stored list)
and `cb` is not already registered under `name`,
`add_event_listener(name, cb)` followed by
`remove_event_listener(name, cb)` restores the bus to its prior state, and
a second `remove_event_listener(name, cb)` from that state is a no-op;
when `cb` is already registered the pair may instead reorder the list. -/
theorem add_remove_roundtrip (bus : Bus) (name : String) (cb : Callback)
    (hwf : busWF bus) (hcb : cb ∉ (busLookup bus name).getD []) :
    remove_event_listener (add_event_listener bus name cb) name cb = bus
    ∧ remove_event_listener bus name cb = bus := by
  constructor
  · cases hl : busLookup bus name with
    | none =>
      have hadd : add_event_listener bus name cb = bus ++ [(name, [cb])] := by
        unfold add_event_listener
        rw [hl]
      rw [hadd]
      unfold remove_event_listener
      rw [busLookup_append_fresh bus name [cb] hl]
      simp [removeFirstCb, busErase_append_fresh bus name [cb] hl]
    | some cbs =>
      have hne : cbs ≠ [] := hwf (name, cbs) (busLookup_mem bus name cbs hl)
      have hnotin : cb ∉ cbs := by
        rw [hl] at hcb
        exact hcb
      have hadd : add_event_listener bus name cb
          = busUpdate bus name (cbs ++ [cb]) := by
        unfold add_event_listener
        rw [hl]
      rw [hadd]
      unfold remove_event_listener
      rw [busLookup_busUpdate bus name cbs (cbs ++ [cb]) hl]
      have hmem : cb ∈ cbs ++ [cb] := by simp
      have happne : cbs ++ [cb] ≠ [] := by simp
      show (if cbs ++ [cb] = [] then busUpdate bus name (cbs ++ [cb])
            else if cb ∈ cbs ++ [cb] then
              if removeFirstCb (cbs ++ [cb]) cb = [] then
                busErase (busUpdate bus name (cbs ++ [cb])) name
              else
                busUpdate (busUpdate bus name (cbs ++ [cb])) name
                  (removeFirstCb (cbs ++ [cb]) cb)
            else busUpdate bus name (cbs ++ [cb])) = bus
      rw [if_neg happne, if_pos hmem,
        removeFirstCb_append_fresh cbs cb hnotin, if_neg hne,
        busUpdate_busUpdate, busUpdate_self bus name cbs hl]
  · unfold remove_event_listener
    cases hl : busLookup bus name with
    | none => rfl
    | some cbs =>
      have hnotin : cb ∉ cbs := by
        rw [hl] at hcb
        exact hcb
      by_cases he : cbs = []
      · simp [he]
      · simp [he, hnotin]

/-- C5 (witness): adding a callback under a fresh name and removing it
twice returns the untouched one-entry bus both times. -/
theorem add_remove_roundtrip_witness :
    remove_event_listener
        (add_event_listener [("map", [5])] "commit" 9) "commit" 9
      = [("map", [5])]
    ∧ remove_event_listener [("map", [5])] "commit" 9 = [("map", [5])] :=
  add_remove_roundtrip [("map", [5])] "commit" 9 (by decide) (by decide)

/-- C6: a commit on a toplevel surface that is initialized but not yet
configured performs exactly one `set_size(800, 600)` call and schedules
exactly one configure; a commit on an already configured surface performs
neither. -/
theorem initial_configure_once (s : SurfaceCtx) :
    (s.hasToplevel = true → s.inited = true → s.configured = false →
      (xdg_surface_commit s).setSizeCalls = [(800, 600)]
      ∧ (xdg_surface_commit s).scheduleConfigureCalls = 1)
    ∧ (s.configured = true →
      (xdg_surface_commit s).setSizeCalls = []
      ∧ (xdg_surface_commit s).scheduleConfigureCalls = 0) := by
  constructor
  · intro h1 h2 h3
    constructor <;> simp [xdg_surface_commit, h1, h2, h3]
  · intro h
    constructor <;> simp [xdg_surface_commit, h]

/-- C6 (witness): a concrete unconfigured, initialized toplevel gets
exactly one 800 by 600 configure on commit. -/
theorem initial_configure_once_witness :
    (xdg_surface_commit freshToplevelSurface).setSizeCalls = [(800, 600)]
    ∧ (xdg_surface_commit freshToplevelSurface).scheduleConfigureCalls = 1 :=
  (initial_configure_once freshToplevelSurface).1 rfl rfl rfl

/-- Each accepted surface is assigned a wid strictly above the incoming
counter value, and the emitted wids are pairwise strictly increasing, as
long as the counter stays below the 64-bit wrap. -/
theorem processNewSurfaces_wids_above (roles : List XdgRole) :
    ∀ counter : Nat, counter + roles.countP roleAccepted < U64 →
      (∀ x ∈ (processNewSurfaces counter roles).2, counter < x)
      ∧ (processNewSurfaces counter roles).2.Pairwise (· < ·) := by
  induction roles with
  | nil =>
    intro c _
    simp [processNewSurfaces]
  | cons r rest ih =>
    intro c h
    by_cases hr : roleAccepted r = true
    · have hcount : (r :: rest).countP roleAccepted
          = rest.countP roleAccepted + 1 := by
        simp [List.countP_cons, hr]
      have hstep : widNext c = c + 1 := by
        unfold widNext
        apply Nat.mod_eq_of_lt
        omega
      have hproc : processNewSurfaces c (r :: rest)
          = ((processNewSurfaces (widNext c) rest).1,
             widNext c :: (processNewSurfaces (widNext c) rest).2) := by
        simp [processNewSurfaces, hr]
      have hlt : c + 1 + rest.countP roleAccepted < U64 := by omega
      obtain ⟨iha, ihp⟩ := ih (c + 1) hlt
      rw [hproc, hstep]
      constructor
      · intro x hx
        rcases List.mem_cons.mp hx with hx | hx
        · omega
        · exact Nat.lt_trans (Nat.lt_succ_self c) (iha x hx)
      · exact List.pairwise_cons.mpr ⟨iha, ihp⟩
    · have hr' : roleAccepted r = false := by
        simpa using hr
      have hcount : (r :: rest).countP roleAccepted
          = rest.countP roleAccepted := by
        simp [List.countP_cons, hr']
      have hproc : processNewSurfaces c (r :: rest)
          = processNewSurfaces c rest := by
        simp [processNewSurfaces, hr']
      rw [hproc]
      exact ih c (by omega)

/-- C7: starting from the initial counter 0, as long as fewer than 2^64
surfaces are accepted (always true of a real run of the u64 counter), the
wid values emitted by successive `new-surface` events are pairwise
strictly increasing, so no wid is ever assigned to two surface records. -/
theorem wids_strictly_increasing (roles : List XdgRole)
    (h : roles.countP roleAccepted < U64) :
    (processNewSurfaces 0 roles).2.Pairwise (· < ·)
    ∧ (processNewSurfaces 0 roles).2.Nodup := by
  have hmain := processNewSurfaces_wids_above roles 0 (by simpa using h)
  exact ⟨hmain.2, hmain.2.imp Nat.ne_of_lt⟩

/-- C7 (witness): a toplevel, a popup and a role-None surface yield the
wids `[1, 2]` (the popup is skipped), strictly increasing and distinct. -/
theorem wids_strictly_increasing_witness :
    (processNewSurfaces 0
        [XdgRole.toplevel, XdgRole.popup, XdgRole.roleNone]).2.Pairwise (· < ·)
    ∧ (processNewSurfaces 0
        [XdgRole.toplevel, XdgRole.popup, XdgRole.roleNone]).2.Nodup :=
  wids_strictly_increasing _ (by decide)

/-- C8: when the read-pixels call fails on a mapped surface with a client
buffer and texture, `capture_surface_pixels` drops the buffer and emits
nothing, so the commit carries no `surface-image` event; the `commit`
event is still emitted afterwards and the handler does not free the
surface record, so later events for this surface remain possible. -/
theorem readback_failure_drops_frame (s : SurfaceCtx) (tex : WlrTexture)
    (hb : s.buffer = some { texture := some tex }) (hr : tex.readOk = false)
    (hm : s.mapped = true) :
    capture_surface_pixels s = none
    ∧ (xdg_surface_commit s).events
        = [Event.commit s.wid true (get_damage_areas s.bufferDamage)]
    ∧ (xdg_surface_commit s).freedRecord = false := by
  have hcap : capture_surface_pixels s = none := by
    unfold capture_surface_pixels
    rw [hb]
    simp [hr]
  refine ⟨hcap, ?_, rfl⟩
  simp [xdg_surface_commit, hm, hcap]

/-- C8 (witness): a concrete mapped surface whose readback fails emits
only its `commit` event and keeps its record. -/
theorem readback_failure_drops_frame_witness :
    capture_surface_pixels failingReadSurface = none
    ∧ (xdg_surface_commit failingReadSurface).events
        = [Event.commit failingReadSurface.wid true
            (get_damage_areas failingReadSurface.bufferDamage)]
    ∧ (xdg_surface_commit failingReadSurface).freedRecord = false :=
  readback_failure_drops_frame failingReadSurface
    { width := 4, height := 2, readOk := false } rfl rfl rfl

/-- C9: `get_keyboard_device` returns `None` on every compositor
instance, so the keyboard facade is never reachable through the
compositor's public accessor. -/
theorem keyboard_device_is_none (c : WaylandCompositorHandles) :
    get_keyboard_device c = none := rfl

/-- C10: `cleanup` of one instance followed by a fresh instance's
`initialize` leaves the module-level wid counter untouched, so the next
assigned wid continues from the previous instance's last value; in
particular it never restarts at 1 once a wid has been assigned (while the
counter is below the 64-bit wrap). -/
theorem wid_counter_survives_reinit (p : ProcState) (h : ServerHandles) :
    (initFresh (cleanup p) h).widCounter = p.widCounter
    ∧ nextAssignedWid (initFresh (cleanup p) h) = widNext p.widCounter
    ∧ (1 ≤ p.widCounter → p.widCounter + 1 < U64 →
        nextAssignedWid (initFresh (cleanup p) h) ≠ 1) := by
  refine ⟨rfl, rfl, ?_⟩
  intro h1 h2
  show widNext p.widCounter ≠ 1
  unfold widNext
  rw [Nat.mod_eq_of_lt h2]
  omega

/-- C10 (witness): after five wids, cleanup plus a fresh initialization
keeps the counter at 5 and the next wid is 6, not 1. -/
theorem wid_counter_survives_reinit_witness :
    (initFresh (cleanup procAfterFive) freshHandles).widCounter
        = procAfterFive.widCounter
    ∧ nextAssignedWid (initFresh (cleanup procAfterFive) freshHandles)
        = widNext procAfterFive.widCounter
    ∧ nextAssignedWid (initFresh (cleanup procAfterFive) freshHandles) ≠ 1 := by
  have h := wid_counter_survives_reinit procAfterFive freshHandles
  exact ⟨h.1, h.2.1, h.2.2 (by decide) (by decide)⟩

end Xpra
